import Mathlib

/-!
Verification of the Sandboxed Execution & Consensus Orchestration Engine
of the BioPharma-Ai-Agents repository, against its natural-language
specification.

The Python modules under `src/omni_agents/pipeline/` are shallowly embedded:
strings become `List Char`, the small fixed set of `re` patterns used by
`stderr_filter.py` and `retry.py` becomes a token-list matcher with
backtracking (equivalent to the Python regexes on the boolean "search found
a match" level), file-system reads become explicit data-structure arguments,
and the async generate/execute callbacks become pure functions supplied as
parameters.  Machine floats in the comparator are modelled as rationals.
-/

namespace OmniAgents

/-- Taxonomy from `models/execution.py` (`ErrorClassification`). -/
inductive ErrorClassification where
  | CODE_BUG
  | ENVIRONMENT_ERROR
  | DATA_PATH_ERROR
  | STATISTICAL_ERROR
  | TIMEOUT
  | UNKNOWN
deriving DecidableEq, Repr

/-- Python `\s` / `str.strip()` whitespace, restricted to the ASCII and
Latin-1 characters that can actually occur in the R stderr handled by the
pipeline. -/
def pySpace (c : Char) : Bool :=
  c = ' ' || c = '\t' || c = '\n' || c = '\r' ||
  c.toNat = 0x0b || c.toNat = 0x0c || c.toNat = 0x85 || c.toNat = 0xa0

/-- Python regex `\w` word character (ASCII part). -/
def pyWord (c : Char) : Bool :=
  c.isAlpha || c.isDigit || c = '_'

/-- Unicode box-drawing block U+2500 - U+257F (used by tidyverse banners). -/
def boxDrawing (c : Char) : Bool :=
  0x2500 ≤ c.toNat && c.toNat ≤ 0x257f

/-- Line boundary characters recognised by Python `str.splitlines`. -/
def pyLineBreak (c : Char) : Bool :=
  c = '\n' || c = '\r' || c.toNat = 0x0b || c.toNat = 0x0c ||
  c.toNat = 0x1c || c.toNat = 0x1d || c.toNat = 0x1e || c.toNat = 0x85 ||
  c.toNat = 0x2028 || c.toNat = 0x2029

/-- ASCII lowering, the fragment of Python `str.lower()` exercised here. -/
def toLowerL (s : List Char) : List Char := s.map Char.toLower

/-- Python `str.splitlines()`: boundary characters end a line, `\r\n`
counts as one boundary, and a trailing boundary produces no trailing empty
line. -/
def pySplitlines : List Char → List (List Char)
  | [] => []
  | [c] => if pyLineBreak c then [[]] else [[c]]
  | c :: c2 :: rest =>
    if c = '\r' ∧ c2 = '\n' then
      [] :: pySplitlines rest
    else if pyLineBreak c then
      [] :: pySplitlines (c2 :: rest)
    else
      match pySplitlines (c2 :: rest) with
      | [] => [[c]]
      | l :: ls => (c :: l) :: ls

/-- Python `"\n".join(lines)`. -/
def joinLines : List (List Char) → List Char
  | [] => []
  | [l] => l
  | l :: l2 :: ls => l ++ '\n' :: joinLines (l2 :: ls)

/-- Helper for `splitOnNl`. -/
def splitOnNlGo : List Char → List Char → List (List Char)
  | [], acc => [acc.reverse]
  | c :: rest, acc =>
    if c = '\n' then acc.reverse :: splitOnNlGo rest []
    else splitOnNlGo rest (c :: acc)

/-- Split on newline only: the positions where a Python `re.MULTILINE`
anchor `^` can match are exactly the heads of these segments. -/
def splitOnNl (s : List Char) : List (List Char) := splitOnNlGo s []

/-- Python `str.strip()`. -/
def pyStrip (s : List Char) : List Char :=
  ((s.dropWhile pySpace).reverse.dropWhile pySpace).reverse

/-- Tokens of the tiny regex fragment used by `stderr_filter.py` and
`retry.py`: literal runs, single / one-or-more / zero-or-more class
characters, an optional literal, a two-way literal alternative, and an
end-of-string anchor. -/
inductive Tok where
  | lit (cs : List Char)
  | one (p : Char → Bool)
  | plus (p : Char → Bool)
  | star (p : Char → Bool)
  | opt (cs : List Char)
  | alt (a b : List Char)
  | eos

/-- Consume one or more characters satisfying `p`, then succeed if the
continuation `k` accepts the remainder (all split points are tried). -/
def tryMore (p : Char → Bool) (k : List Char → Bool) : List Char → Bool
  | [] => false
  | c :: rest => p c && (k rest || tryMore p k rest)

/-- Backtracking matcher: does the token sequence match a prefix of `s`
(the rest of `s` is unconstrained unless the pattern ends in `eos`)?
Boolean-equivalent to the corresponding Python `re` pattern match at the
start of `s`. -/
def matchToks : List Tok → List Char → Bool
  | [], _ => true
  | .eos :: ts, s => s.isEmpty && matchToks ts s
  | .lit cs :: ts, s => cs.isPrefixOf s && matchToks ts (s.drop cs.length)
  | .opt cs :: ts, s =>
    (cs.isPrefixOf s && matchToks ts (s.drop cs.length)) || matchToks ts s
  | .alt a b :: ts, s =>
    (a.isPrefixOf s && matchToks ts (s.drop a.length)) ||
    (b.isPrefixOf s && matchToks ts (s.drop b.length))
  | .one p :: ts, s =>
    match s with
    | [] => false
    | c :: rest => p c && matchToks ts rest
  | .plus p :: ts, s => tryMore p (fun s2 => matchToks ts s2) s
  | .star p :: ts, s =>
    matchToks ts s || tryMore p (fun s2 => matchToks ts s2) s

/-- Python `re.search`: try the pattern at every start position. -/
def reSearch (ts : List Tok) : List Char → Bool
  | [] => matchToks ts []
  | s@(_ :: rest) => matchToks ts s || reSearch ts rest

/-! ### `stderr_filter.py`: the thirteen `_NOISE_PATTERNS`

Patterns compiled with `re.IGNORECASE` are applied to the lowered line with
lowercase literals; the others to the raw line.  `search`-style patterns use
`reSearch`; `^`-anchored ones use `matchToks` at the line start. -/

/-- `Attaching (core )?tidyverse packages?`, IGNORECASE, search. -/
def noiseTidyverse (line : List Char) : Bool :=
  reSearch
    [.lit "attaching ".data, .opt "core ".data, .lit "tidyverse package".data,
     .opt "s".data]
    (toLowerL line)

/-- `Conflicts\s*[─-╿-]+`, search. -/
def noiseConflictsHeader (line : List Char) : Bool :=
  reSearch
    [.lit "Conflicts".data, .star pySpace,
     .plus (fun c => boxDrawing c || c = '-')]
    line

/-- `\w+::\w+\(\)\s+masks\s+\w+::\w+\(\)`, search. -/
def noiseMasks (line : List Char) : Bool :=
  reSearch
    [.plus pyWord, .lit "::".data, .plus pyWord, .lit "()".data,
     .plus pySpace, .lit "masks".data, .plus pySpace,
     .plus pyWord, .lit "::".data, .plus pyWord, .lit "()".data]
    line

/-- `The following objects?\s+(is|are)\s+masked\s+from`, IGNORECASE, search. -/
def noiseMaskedFrom (line : List Char) : Bool :=
  reSearch
    [.lit "the following object".data, .opt "s".data, .plus pySpace,
     .alt "is".data "are".data, .plus pySpace, .lit "masked".data,
     .plus pySpace, .lit "from".data]
    (toLowerL line)

/-- `^Loading required package:\s`, IGNORECASE, anchored. -/
def noiseLoadingRequired (line : List Char) : Bool :=
  matchToks [.lit "loading required package:".data, .one pySpace]
    (toLowerL line)

/-- `^Attaching package:\s`, IGNORECASE, anchored. -/
def noiseAttachingPackage (line : List Char) : Bool :=
  matchToks [.lit "attaching package:".data, .one pySpace] (toLowerL line)

/-- `^[✔✖✓✗•ℹ]`, anchored. -/
def noiseBulletMark (line : List Char) : Bool :=
  matchToks
    [.one (fun c => c.toNat = 0x2714 || c.toNat = 0x2716 || c.toNat = 0x2713 ||
      c.toNat = 0x2717 || c.toNat = 0x2022 || c.toNat = 0x2139)]
    line

/-- `Use the conflicted package`, IGNORECASE, search. -/
def noiseConflicted (line : List Char) : Bool :=
  reSearch [.lit "use the conflicted package".data] (toLowerL line)

/-- `^Registered S3 method`, IGNORECASE, anchored. -/
def noiseRegisteredS3 (line : List Char) : Bool :=
  matchToks [.lit "registered s3 method".data] (toLowerL line)

/-- `^\s{2,}[\w.,\s]+$`, anchored at both ends. -/
def noiseIndented (line : List Char) : Bool :=
  matchToks
    [.one pySpace, .one pySpace, .star pySpace,
     .plus (fun c => pyWord c || c = '.' || c = ',' || pySpace c), .eos]
    line

/-- `^also loading:`, IGNORECASE, anchored. -/
def noiseAlsoLoading (line : List Char) : Bool :=
  matchToks [.lit "also loading:".data] (toLowerL line)

/-- `^[─-╿\s-]+$`, anchored at both ends. -/
def noiseBoxOnly (line : List Char) : Bool :=
  matchToks
    [.plus (fun c => boxDrawing c || pySpace c || c = '-'), .eos]
    line

/-- `replacing previous import`, search. -/
def noiseReplacingImport (line : List Char) : Bool :=
  reSearch [.lit "replacing previous import".data] line

/-- A line matches any of the `_NOISE_PATTERNS`. -/
def noiseLine (line : List Char) : Bool :=
  noiseTidyverse line || noiseConflictsHeader line || noiseMasks line ||
  noiseMaskedFrom line || noiseLoadingRequired line ||
  noiseAttachingPackage line || noiseBulletMark line || noiseConflicted line ||
  noiseRegisteredS3 line || noiseIndented line || noiseAlsoLoading line ||
  noiseBoxOnly line || noiseReplacingImport line

/-- The per-line decision of `filter_r_stderr`: lines whose stripped form
starts with `Error`/`error` are always kept, other lines are kept iff they
match no noise pattern. -/
def keepLine (line : List Char) : Bool :=
  let stripped := pyStrip line
  "Error".data.isPrefixOf stripped || "error".data.isPrefixOf stripped ||
  ! noiseLine line

/-- `stderr_filter.filter_r_stderr`: split into lines, keep each line per
`keepLine`, join with newlines and strip the ends. -/
def filter_r_stderr (stderr : List Char) : List Char :=
  if stderr.isEmpty then []
  else pyStrip (joinLines ((pySplitlines stderr).filter keepLine))

/-! ### `retry.py`: error classification -/

/-- Environment-error substring patterns (checked on lowered stderr). -/
def envPatterns : List (List Char) :=
  ["there is no package called".data,
   "cannot open shared object file".data,
   "unable to load shared object".data]

/-- Data-path-error substring patterns (checked on lowered stderr). -/
def pathPatterns : List (List Char) :=
  ["cannot open connection".data,
   "no such file or directory".data,
   "cannot open file".data]

/-- Statistical-error substring patterns (checked on lowered stderr). -/
def statPatterns : List (List Char) :=
  ["error in solve.default".data,
   "singular".data,
   "convergence".data,
   "not positive definite".data,
   "infinite or missing values".data]

/-- `_CODE_BUG_SUBSTRINGS` (checked on lowered stderr). -/
def codeBugSubstrings : List (List Char) :=
  ["na/nan/inf in foreign function call".data,
   "unexpected symbol".data,
   "unexpected string".data,
   "unexpected '".data,
   "subscript out of bounds".data,
   "non-numeric argument".data,
   "replacement has".data,
   "arguments imply differing number of rows".data]

/-- `object\s+'[^']+'\s+not found`, IGNORECASE, search. -/
def codeBugObjectQuoted (stderr : List Char) : Bool :=
  reSearch
    [.lit "object".data, .plus pySpace, .lit "'".data,
     .plus (fun c => c ≠ '\''), .lit "'".data, .plus pySpace,
     .lit "not found".data]
    (toLowerL stderr)

/-- `object\s+\S+\s+not found`, IGNORECASE, search. -/
def codeBugObjectBare (stderr : List Char) : Bool :=
  reSearch
    [.lit "object".data, .plus pySpace, .plus (fun c => ! pySpace c),
     .plus pySpace, .lit "not found".data]
    (toLowerL stderr)

/-- `could not find function`, IGNORECASE, search. -/
def codeBugFindFunction (stderr : List Char) : Bool :=
  reSearch [.lit "could not find function".data] (toLowerL stderr)

/-- `^Error in ` with `re.MULTILINE`: some newline-delimited segment starts
with `Error in `. -/
def codeBugErrorIn (stderr : List Char) : Bool :=
  (splitOnNl stderr).any (fun l => "Error in ".data.isPrefixOf l)

/-- Any of the four `_CODE_BUG_REGEX` patterns matches. -/
def codeBugRegexHit (stderr : List Char) : Bool :=
  codeBugObjectQuoted stderr || codeBugObjectBare stderr ||
  codeBugFindFunction stderr || codeBugErrorIn stderr

/-- Python `pat in s` substring test. -/
def isSubstring (pat : List Char) : List Char → Bool
  | [] => pat.isEmpty
  | s@(_ :: rest) => pat.isPrefixOf s || isSubstring pat rest

/-- Does the lowered stderr contain any pattern of the list? -/
def anyInfix (pats : List (List Char)) (stderr : List Char) : Bool :=
  pats.any (fun p => isSubstring p (toLowerL stderr))

/-- `retry.classify_error`: the first-match decision tree.  `exit_code` is
accepted but, as in the source, never inspected. -/
def classify_error (stderr : List Char) (_exit_code : Int) (timed_out : Bool) :
    ErrorClassification :=
  if timed_out then .TIMEOUT
  else if anyInfix envPatterns stderr then .ENVIRONMENT_ERROR
  else if anyInfix pathPatterns stderr then .DATA_PATH_ERROR
  else if anyInfix statPatterns stderr then .STATISTICAL_ERROR
  else if codeBugRegexHit stderr then .CODE_BUG
  else if anyInfix codeBugSubstrings stderr then .CODE_BUG
  else .UNKNOWN

/-- `retry.is_retriable`. -/
def is_retriable : ErrorClassification → Bool
  | .CODE_BUG => true
  | .DATA_PATH_ERROR => true
  | .UNKNOWN => true
  | .TIMEOUT => true
  | .ENVIRONMENT_ERROR => false
  | .STATISTICAL_ERROR => false

/-- `retry._is_real_error`: some line's stripped form starts with
`Error`/`error`. -/
def is_real_error (stderr : List Char) : Bool :=
  (pySplitlines stderr).any (fun line =>
    let stripped := pyStrip line
    "Error".data.isPrefixOf stripped || "error".data.isPrefixOf stripped)

/-! ### `retry.execute_with_retry`

The async `generate_code_fn` callback and the Docker `executor.execute`
call are modelled as pure functions `gen : Option stderr → attempt → code`
and `exec : code → DockerResult`; wall-clock timestamps are omitted from
`AgentAttempt` (they carry no information the claims mention). -/

/-- `models/execution.py` `DockerResult`; `duration_seconds` (a float)
becomes a rational. -/
structure DockerResult where
  exit_code : Int
  stdout : List Char
  stderr : List Char
  duration_seconds : ℚ
  timed_out : Bool
deriving DecidableEq, Repr

/-- `models/execution.py` `AgentAttempt` (without the timestamp). -/
structure AgentAttempt where
  attempt_number : Nat
  generated_code : List Char
  docker_result : Option DockerResult
  error_class : Option ErrorClassification
deriving DecidableEq, Repr

/-- Terminal outcome of the retry loop: normal return, the
`NonRetriableError` raise, or the `MaxRetriesExceededError` raise; each
error carries the full attempt ledger exactly as the exception objects do. -/
inductive RetryOutcome where
  | success (stdout : List Char) (attempts : List AgentAttempt)
  | nonRetriable (error_class : ErrorClassification)
      (attempts : List AgentAttempt)
  | maxRetries (attempts : List AgentAttempt)
deriving DecidableEq, Repr

/-- The `DockerResult` rebuild in `execute_with_retry`: stderr replaced by
its filtered form (STDERR-03). -/
def filterResult (dr : DockerResult) : DockerResult :=
  { dr with stderr := filter_r_stderr dr.stderr }

/-- The success test of `execute_with_retry`: zero exit, no timeout, no
real error line in the (already filtered) stderr. -/
def isSuccessResult (dr : DockerResult) : Bool :=
  dr.exit_code == 0 && ! dr.timed_out && ! is_real_error dr.stderr

/-- The body of `execute_with_retry`'s `for attempt_num in
range(1, max_attempts + 1)` loop; `fuel` counts the remaining iterations. -/
def retryGo (gen : Option (List Char) → Nat → List Char)
    (exec : List Char → DockerResult) :
    Nat → Nat → List AgentAttempt → Option (List Char) → RetryOutcome
  | 0, _, attempts, _ => .maxRetries attempts
  | fuel + 1, attempt_num, attempts, last_error =>
    let code := gen last_error attempt_num
    let dr := filterResult (exec code)
    if isSuccessResult dr then
      .success dr.stdout (attempts ++ [⟨attempt_num, code, some dr, none⟩])
    else
      let ec := classify_error dr.stderr dr.exit_code dr.timed_out
      let attempts2 := attempts ++ [⟨attempt_num, code, some dr, some ec⟩]
      if is_retriable ec then
        retryGo gen exec fuel (attempt_num + 1) attempts2 (some dr.stderr)
      else
        .nonRetriable ec attempts2

/-- `retry.execute_with_retry` (default `max_attempts = 3`). -/
def execute_with_retry (gen : Option (List Char) → Nat → List Char)
    (exec : List Char → DockerResult) (max_attempts : Nat) : RetryOutcome :=
  retryGo gen exec max_attempts 1 [] none

/-! ### `stage_comparator.py` -/

/-- The seven metric values extracted from one track's `results.json` in
`compare_stats` (floats modelled as rationals). -/
structure StatsResults where
  n_subjects : ℚ
  n_events : ℚ
  n_censored : ℚ
  logrank_p : ℚ
  cox_hr : ℚ
  km_median_treatment : ℚ
  km_median_placebo : ℚ
deriving DecidableEq

/-- A tolerance declaration from `STATS_TOLERANCES`. -/
inductive TolSpec where
  | exact
  | absolute (threshold : ℚ)
  | relative (threshold : ℚ)
deriving DecidableEq

/-- `stage_comparator.STATS_TOLERANCES`. -/
def STATS_TOLERANCES : List (String × TolSpec) :=
  [("n_subjects", .exact),
   ("n_events", .exact),
   ("n_censored", .exact),
   ("logrank_p", .absolute (1 / 1000)),
   ("cox_hr", .relative (1 / 1000)),
   ("km_median_treatment", .absolute (1 / 2)),
   ("km_median_placebo", .absolute (1 / 2))]

/-- The per-metric tolerance test of `compare_stats`: `exact` is `==`,
`absolute` is `|a - b| <= threshold`, `relative` is
`math.isclose(a, b, rel_tol=threshold, abs_tol=0)`, i.e.
`|a - b| <= threshold * max(|a|, |b|)`. -/
def withinTol : TolSpec → ℚ → ℚ → Bool
  | .exact, a, b => decide (a = b)
  | .absolute t, a, b => decide (|a - b| ≤ t)
  | .relative t, a, b => decide (|a - b| ≤ t * max |a| |b|)

/-- The `metrics` dict of `compare_stats`, in its insertion order. -/
def statsMetricList (a b : StatsResults) : List (String × ℚ × ℚ) :=
  [("n_subjects", a.n_subjects, b.n_subjects),
   ("n_events", a.n_events, b.n_events),
   ("n_censored", a.n_censored, b.n_censored),
   ("logrank_p", a.logrank_p, b.logrank_p),
   ("cox_hr", a.cox_hr, b.cox_hr),
   ("km_median_treatment", a.km_median_treatment, b.km_median_treatment),
   ("km_median_placebo", a.km_median_placebo, b.km_median_placebo)]

/-- Tolerance test for a named metric; the `none` branch mirrors the
`KeyError` a lookup outside `STATS_TOLERANCES` would raise and is
unreachable for the seven metric names actually used. -/
def statsWithin (name : String) (va vb : ℚ) : Bool :=
  match STATS_TOLERANCES.lookup name with
  | some spec => withinTol spec va vb
  | none => false

/-- `models/resolution.py` `StageComparison`.  The human-readable issue
strings are abstracted to the failing metric's name, and the summary dicts
to association lists of the numeric summary values (the only ones any
consumer reads). -/
structure StageComparison where
  stage : String
  matches' : Bool
  issues : List String
  track_a_summary : List (String × ℚ)
  track_b_summary : List (String × ℚ)
deriving DecidableEq

/-- `StageComparator.compare_stats`, applied to the metric values read from
the two tracks' `results.json`. -/
def compare_stats (a b : StatsResults) : StageComparison :=
  let ms := statsMetricList a b
  let issues := (ms.filter fun m => ! statsWithin m.1 m.2.1 m.2.2).map (·.1)
  { stage := "stats"
    matches' := issues.length == 0
    issues := issues
    track_a_summary := ms.map fun m => (m.1, m.2.1)
    track_b_summary := ms.map fun m => (m.1, m.2.2) }

/-! ### `resolution.py` -/

/-- `models/resolution.py` `ResolutionResult` (the human-readable
`resolution_log` is omitted; no claim mentions it). -/
structure ResolutionResult where
  resolved : Bool
  iterations : Nat
  winning_track : Option String
  stage : String
deriving DecidableEq

/-- The key priority order hard-coded in `ResolutionLoop._diagnose`. -/
def diagnoseKeys : List String := ["dm_rows", "n_rows", "subjects"]

/-- The key loop of `_diagnose`: first key present in both summaries with
different values decides; fewer wins. -/
def diagnoseGo (a b : List (String × ℚ)) : List String → String
  | [] => "track_b"
  | k :: ks =>
    match a.lookup k, b.lookup k with
    | some av, some bv =>
      if av ≠ bv then (if av < bv then "track_a" else "track_b")
      else diagnoseGo a b ks
    | _, _ => diagnoseGo a b ks

/-- `ResolutionLoop._diagnose`. -/
def diagnoseTrack (d : StageComparison) : String :=
  diagnoseGo d.track_a_summary d.track_b_summary diagnoseKeys

/-- `ResolutionLoop._pick_best_track`: always `"track_a"` in V1. -/
def pick_best_track (_d : StageComparison) : Option String :=
  some "track_a"

/-- `StageComparisonResult.first_disagreement`. -/
def first_disagreement (comparisons : List StageComparison) :
    Option StageComparison :=
  comparisons.find? fun c => ! c.matches'

/-- `StageComparisonResult.has_disagreement`. -/
def has_disagreement (comparisons : List StageComparison) : Bool :=
  comparisons.any fun c => ! c.matches'

/-- The iteration body of `ResolutionLoop.resolve`.  The track state of
type `σ` abstracts the pair of `TrackResult` directory trees; `rerun
failing cur s` performs `_generate_hint` plus `_rerun_from_stage` for the
diagnosed failing track, and `compareAll` is
`StageComparator.compare_all_stages` on the current state. -/
def resolveGo {σ : Type} (rerun : String → StageComparison → σ → σ)
    (compareAll : σ → List StageComparison) (max_iterations : Nat) :
    Nat → Nat → StageComparison → σ → ResolutionResult
  | 0, _, cur, _ =>
    ⟨false, max_iterations, pick_best_track cur, cur.stage⟩
  | fuel + 1, iteration, cur, s =>
    let failing := diagnoseTrack cur
    let s2 := rerun failing cur s
    let comps := compareAll s2
    match comps.find? (fun c => ! c.matches') with
    | none => ⟨true, iteration, none, cur.stage⟩
    | some c2 =>
      resolveGo rerun compareAll max_iterations fuel (iteration + 1) c2 s2

/-- `ResolutionLoop.resolve` (iterations `1 .. max_iterations`). -/
def resolve {σ : Type} (rerun : String → StageComparison → σ → σ)
    (compareAll : σ → List StageComparison) (max_iterations : Nat)
    (disagreement : StageComparison) (s : σ) : ResolutionResult :=
  resolveGo rerun compareAll max_iterations max_iterations 1 disagreement s

/-! ### `script_cache.py` and the `generate_code` closure of
`orchestrator.PipelineOrchestrator._run_agent`

`ScriptCache.cache_key` hashes `(trial_config JSON, agent name, track id)`
with SHA-256; the key is modelled as that payload triple itself (the hash
assumed collision-free), and the `.R`-file store as an association list.
The agent context dict is kept abstract (type `Ctx`): `llmGen` stands for
`agent.generate_code` composed with `agent.inject_seed`, and `makeRetryCtx`
for `agent.make_retry_context`. -/

/-- The cache key payload `(trial_config.model_dump_json(), agent_name,
track_id)`. -/
def CacheKey : Type := String × String × String
deriving DecidableEq, BEq

/-- The on-disk script cache directory: key to cached script text. -/
def Cache : Type := List (CacheKey × List Char)

/-- `ScriptCache.get`. -/
def cacheGet (cache : Cache) (key : CacheKey) : Option (List Char) :=
  (List.lookup key cache : Option (List Char))

/-- `ScriptCache.put` (a file write; later `get`s see the new value). -/
def cachePut (cache : Cache) (key : CacheKey) (code : List Char) : Cache :=
  ((key, code) :: cache : List (CacheKey × List Char))

/-- The `generate_code` closure defined inside `_run_agent`: on the first
attempt with no previous error it consults the cache, returning a hit
verbatim, and on a miss stores the freshly generated script *immediately,
before it is ever executed*; retry attempts regenerate with
`make_retry_context` and never touch the cache.  `some []` mirrors a
falsy empty previous-error string, on which `if previous_error:` does not
build a retry context. -/
def generate_code {Ctx : Type} (llmGen : Ctx → List Char)
    (makeRetryCtx : Ctx → List Char → Nat → Ctx)
    (key : CacheKey) (baseCtx : Ctx)
    (cache : Cache) (previous_error : Option (List Char)) (attempt : Nat) :
    List Char × Cache :=
  if attempt = 1 ∧ previous_error = none then
    match cacheGet cache key with
    | some cached => (cached, cache)
    | none =>
      let code := llmGen baseCtx
      (code, cachePut cache key code)
  else
    let ctx :=
      match previous_error with
      | some e => if e.isEmpty then baseCtx else makeRetryCtx baseCtx e attempt
      | none => baseCtx
    (llmGen ctx, cache)

/-- The retry loop of `_run_agent`: `execute_with_retry` driven by the
`generate_code` closure, threading the script cache it mutates. -/
def runAgentGo {Ctx : Type} (llmGen : Ctx → List Char)
    (makeRetryCtx : Ctx → List Char → Nat → Ctx)
    (key : CacheKey) (baseCtx : Ctx) (exec : List Char → DockerResult) :
    Nat → Nat → List AgentAttempt → Option (List Char) → Cache →
    RetryOutcome × Cache
  | 0, _, attempts, _, cache => (.maxRetries attempts, cache)
  | fuel + 1, attempt_num, attempts, last_error, cache =>
    let gc := generate_code llmGen makeRetryCtx key baseCtx cache
      last_error attempt_num
    let code := gc.1
    let cache2 := gc.2
    let dr := filterResult (exec code)
    if isSuccessResult dr then
      (.success dr.stdout (attempts ++ [⟨attempt_num, code, some dr, none⟩]),
       cache2)
    else
      let ec := classify_error dr.stderr dr.exit_code dr.timed_out
      let attempts2 := attempts ++ [⟨attempt_num, code, some dr, some ec⟩]
      if is_retriable ec then
        runAgentGo llmGen makeRetryCtx key baseCtx exec fuel
          (attempt_num + 1) attempts2 (some dr.stderr) cache2
      else
        (.nonRetriable ec attempts2, cache2)

/-- `PipelineOrchestrator._run_agent` (it calls `execute_with_retry` with
`max_attempts = 3`; the bound is kept as a parameter). -/
def run_agent {Ctx : Type} (llmGen : Ctx → List Char)
    (makeRetryCtx : Ctx → List Char → Nat → Ctx)
    (key : CacheKey) (baseCtx : Ctx) (exec : List Char → DockerResult)
    (max_attempts : Nat) (cache : Cache) : RetryOutcome × Cache :=
  runAgentGo llmGen makeRetryCtx key baseCtx exec max_attempts 1 [] none cache

/-! ### `schema_validator.py`: `SchemaValidator.validate_sdtm`

A CSV read through `csv.DictReader` is modelled as a list of rows, each an
association list from column name to cell text; the column set is the
first row's keys, as in the source.  The directory is the pair of optional
files.  Issue strings are abstracted to constructors carrying the data
interpolated into the corresponding f-string. -/

/-- One CSV row: column name to cell value. -/
def CsvRow : Type := List (String × String)

/-- A parsed CSV file. -/
def CsvFile : Type := List CsvRow

/-- `row[col]` (rows produced by `csv.DictReader` all share the header's
keys; a missing key would be a `KeyError` in the source). -/
def cell (r : CsvRow) (col : String) : String :=
  ((List.lookup col r).getD "" : String)

/-- The column set: keys of the first row, empty for an empty file. -/
def csvCols : CsvFile → List String
  | [] => []
  | r :: _ => (r.map (·.1) : List String)

/-- `models/schemas.py` `REQUIRED_DM_COLS`, listed in sorted order (the
source keeps a `frozenset`; `_check_columns` reports `sorted(missing)`). -/
def REQUIRED_DM_COLS : List String :=
  ["ACTARM", "ACTARMCD", "AGE", "AGEU", "ARM", "ARMCD", "DOMAIN",
   "RACE", "SEX", "STUDYID", "SUBJID", "USUBJID"]

/-- `models/schemas.py` `REQUIRED_VS_COLS`, listed in sorted order. -/
def REQUIRED_VS_COLS : List String :=
  ["DOMAIN", "STUDYID", "USUBJID", "VISIT", "VISITNUM", "VSORRES",
   "VSSEQ", "VSSTRESN", "VSSTRESU", "VSTEST", "VSTESTCD"]

/-- `models/schemas.py` `VALID_SEX`. -/
def VALID_SEX : List String := ["M", "F", "U", "UNDIFFERENTIATED"]

/-- `models/schemas.py` `VALID_RACE`. -/
def VALID_RACE : List String :=
  ["WHITE", "BLACK OR AFRICAN AMERICAN", "ASIAN",
   "AMERICAN INDIAN OR ALASKA NATIVE",
   "NATIVE HAWAIIAN OR OTHER PACIFIC ISLANDER",
   "MULTIPLE", "NOT REPORTED", "UNKNOWN"]

/-- The issues `validate_sdtm` can report, one constructor per f-string. -/
inductive SdtmIssue where
  | dmNotFound
  | vsNotFound
  | missingCols (label : String) (missing : List String)
  | dmRowCount (expected : Int) (got : Nat)
  | vsRowCount (expected : Int) (got : Nat)
  | invalidSex (vals : List String)
  | invalidRace (vals : List String)
  | refIntegrity (orphanCount : Nat) (sample : List String)
deriving DecidableEq, Repr

/-- `SchemaValidator._check_columns`: required minus actual (the required
lists above being sorted, the filter result is `sorted(missing)`). -/
def check_columns (actual : List String) (required : List String)
    (label : String) : List SdtmIssue :=
  let missing := required.filter fun c => ! actual.contains c
  if missing.isEmpty then [] else [.missingCols label missing]

/-- Insert into a ≤-sorted list of strings. -/
def insertSorted (a : String) : List String → List String
  | [] => [a]
  | b :: bs => if a ≤ b then a :: b :: bs else b :: insertSorted a bs

/-- Python `sorted` on strings (insertion sort; the inputs it is applied
to are duplicate-free, so any sorting algorithm yields the same list). -/
def sortStrings (l : List String) : List String := l.foldr insertSorted []

/-- Distinct invalid values of a controlled-terminology column, sorted
(Python builds a set comprehension and sorts it). -/
def invalidValues (rows : CsvFile) (col : String) (valid : List String) :
    List String :=
  sortStrings ((rows.map fun r => cell r col).filter fun v =>
    ! valid.contains v).dedup

/-- The content checks of `validate_sdtm` once both files exist, issues
in source order: DM columns, VS columns, DM row count, VS row count,
`SEX` terminology, `RACE` terminology, referential integrity. -/
def sdtmContentIssues (dmRows vsRows : CsvFile) (expected : Int) :
    List SdtmIssue :=
  let dmCols := csvCols dmRows
  let vsCols := csvCols vsRows
  check_columns dmCols REQUIRED_DM_COLS "DM" ++
  check_columns vsCols REQUIRED_VS_COLS "VS" ++
  (if (dmRows.length : Int) ≠ expected then
    [.dmRowCount expected dmRows.length] else []) ++
  (if (vsRows.length : Int) ≠ expected * 26 then
    [.vsRowCount (expected * 26) vsRows.length] else []) ++
  (if dmCols.contains "SEX" then
    let bad := invalidValues dmRows "SEX" VALID_SEX
    if bad.isEmpty then [] else [.invalidSex bad]
   else []) ++
  (if dmCols.contains "RACE" then
    let bad := invalidValues dmRows "RACE" VALID_RACE
    if bad.isEmpty then [] else [.invalidRace bad]
   else []) ++
  (if dmCols.contains "USUBJID" && vsCols.contains "USUBJID" then
    let dmSubj := (dmRows.map fun r => cell r "USUBJID").dedup
    let orphans := ((vsRows.map fun r => cell r "USUBJID").dedup).filter
      fun s => ! dmSubj.contains s
    if orphans.isEmpty then []
    else [.refIntegrity orphans.length ((sortStrings orphans).take 5)]
   else [])

/-- `SchemaValidator.validate_sdtm` on a directory holding optional
`DM.csv` and `VS.csv`: missing files raise immediately with the existence
issues; otherwise the content issues are collected and raised together. -/
def validate_sdtm (dm vs : Option CsvFile) (expected : Int) :
    Except (List SdtmIssue) Unit :=
  match dm, vs with
  | some dmRows, some vsRows =>
    let issues := sdtmContentIssues dmRows vsRows expected
    if issues.isEmpty then .ok () else .error issues
  | _, _ =>
    .error ((if dm.isNone then [.dmNotFound] else []) ++
      (if vs.isNone then [.vsNotFound] else []))

/-! ### `schema_validator.py`: `SchemaValidator.validate_adam`

The four files of the ADaM output directory are modelled as: existence
flags for `ADSL.csv` and `ADTTE.rds`, and for each summary JSON an
`Option (Option _)` — `none` for a missing file, `some none` for one that
exists but fails to parse/validate as its model, `some (some s)` for a
parsed summary. -/

/-- `models/schemas.py` `ADTTESummary`. -/
structure ADTTESummary where
  n_rows : Int
  n_events : Int
  n_censored : Int
  columns : List String
  paramcd : String
deriving DecidableEq, Repr

/-- Modelled from the spec: `ADSLSummary` is imported by
`schema_validator.py` but absent from the provided `models/schemas.py`;
its fields are the ones the validator reads (`n_rows`, `columns`). -/
structure ADSLSummary where
  n_rows : Int
  columns : List String
deriving DecidableEq, Repr

/-- `models/schemas.py` `REQUIRED_ADTTE_COLS`, listed in sorted order. -/
def REQUIRED_ADTTE_COLS : List String :=
  ["AGE", "ARM", "ARMCD", "AVAL", "CNSR", "EVNTDESC", "PARAM",
   "PARAMCD", "SEX", "STARTDT", "STUDYID", "USUBJID"]

/-- The issues `validate_adam` can report, one constructor per f-string. -/
inductive AdamIssue where
  | adslCsvNotFound
  | adslSummaryNotFound
  | adslParseError
  | adslRowCount (expected : Int) (got : Int)
  | missingCols (label : String) (missing : List String)
  | adtteRdsNotFound
  | adtteSummaryNotFound
  | adtteParseError
  | adtteRowCount (expected : Int) (got : Int)
  | eventsPlusCensored (events censored expected : Int)
  | censoredZero
  | eventRateHigh (events rows : Int)
  | paramcdMismatch (got : String)
deriving DecidableEq, Repr

/-- `_check_columns` core: required minus actual, in the (sorted) order of
the required list. -/
def missingColumns (actual required : List String) : List String :=
  required.filter fun c => ! actual.contains c

/-- `_check_columns` for the ADaM validator. -/
def adamCheckCols (actual required : List String) (label : String) :
    List AdamIssue :=
  let missing := missingColumns actual required
  if missing.isEmpty then [] else [.missingCols label missing]

/-- The ADTTE content checks of `validate_adam`, issues in source order:
row count, events + censored total, zero-censored sanity check,
event-rate sanity check, required columns, `PARAMCD`. -/
def adtteContentIssues (s : ADTTESummary) (expected : Int) :
    List AdamIssue :=
  (if s.n_rows ≠ expected then [.adtteRowCount expected s.n_rows] else []) ++
  (if s.n_events + s.n_censored ≠ expected then
    [.eventsPlusCensored s.n_events s.n_censored expected] else []) ++
  (if s.n_censored = 0 then [.censoredZero] else []) ++
  (if s.n_rows > 0 ∧ (s.n_events : ℚ) / (s.n_rows : ℚ) > 95 / 100 then
    [.eventRateHigh s.n_events s.n_rows] else []) ++
  adamCheckCols s.columns REQUIRED_ADTTE_COLS "ADTTE" ++
  (if s.paramcd ≠ "TTESB120" then [.paramcdMismatch s.paramcd] else [])

/-- The ADSL checks of `validate_adam`: existence issues for both files,
then — only when both exist — the parse result's row count and columns.
`requiredAdslCols` stands for the `REQUIRED_ADSL_COLS` constant missing
from the provided sources. -/
def adslIssues (adslCsv : Bool) (adslSum : Option (Option ADSLSummary))
    (expected : Int) (requiredAdslCols : List String) : List AdamIssue :=
  (if !adslCsv then [.adslCsvNotFound] else []) ++
  (if adslSum.isNone then [.adslSummaryNotFound] else []) ++
  (if adslCsv then
    match adslSum with
    | some none => [.adslParseError]
    | some (some s) =>
      (if s.n_rows ≠ expected then [.adslRowCount expected s.n_rows]
       else []) ++ adamCheckCols s.columns requiredAdslCols "ADSL"
    | none => []
   else [])

/-- `SchemaValidator.validate_adam`: ADSL issues are collected first; a
missing `ADTTE.rds` or `ADTTE_summary.json` raises right after the
existence checks, a summary parse failure raises with the issues so far,
and otherwise all ADTTE content issues are collected before raising. -/
def validate_adam (adslCsv : Bool) (adslSum : Option (Option ADSLSummary))
    (adtteRds : Bool) (adtteSum : Option (Option ADTTESummary))
    (expected : Int) (requiredAdslCols : List String) :
    Except (List AdamIssue) Unit :=
  let i1 := adslIssues adslCsv adslSum expected requiredAdslCols
  let i2 := i1 ++ (if !adtteRds then [.adtteRdsNotFound] else []) ++
    (if adtteSum.isNone then [.adtteSummaryNotFound] else [])
  if !adtteRds || adtteSum.isNone then .error i2
  else
    match adtteSum with
    | some none => .error (i2 ++ [.adtteParseError])
    | some (some s) =>
      let i3 := i2 ++ adtteContentIssues s expected
      if i3.isEmpty then .ok () else .error i3
    | none => .error i2

/-- A Docker result that, after stderr filtering, fails the success test
and classifies as retriable. -/
def failsRetriably (dr : DockerResult) : Prop :=
  isSuccessResult (filterResult dr) = false ∧
  is_retriable (classify_error (filterResult dr).stderr
    (filterResult dr).exit_code (filterResult dr).timed_out) = true

/-- A Docker result that, after stderr filtering, fails the success test
and classifies as non-retriable. -/
def failsNonRetriably (dr : DockerResult) : Prop :=
  isSuccessResult (filterResult dr) = false ∧
  is_retriable (classify_error (filterResult dr).stderr
    (filterResult dr).exit_code (filterResult dr).timed_out) = false

/-- A line that the final whole-output `strip()` of `filter_r_stderr`
cannot alter: nonempty, and neither starting nor ending in whitespace. -/
def trimSafeLine : List Char → Bool
  | [] => false
  | c :: rest => ! pySpace c && ! pySpace ((c :: rest).getLastD 'a')

/-- Concrete agent-context model for the resolution re-run scenario: the
context is the single bit "does the context carry the resolution hint
under its `previous_error` key", and generation depends on it — the LLM
produces a different script when the hint is present. -/
def hintSensitiveGen : Bool → List Char :=
  fun withHint => if withHint then "hinted_script".data else "plain_script".data

/-- `make_retry_context` for the Boolean context model: keeps the context. -/
def keepCtx : Bool → List Char → Nat → Bool := fun c _ _ => c

/-- An executor whose every run succeeds with clean stderr. -/
def okExec : List Char → DockerResult := fun _ => ⟨0, "ok".data, [], 0, false⟩

/-! ## Theorems -/

/-- C3: `classify_error` decides by first match in the fixed order
timeout → environment → data-path → statistical → code-bug → unknown,
and the masked-object load banner with exit code 0 and no timeout is
UNKNOWN, not CODE_BUG. -/
theorem C3_classify_first_match_order :
    (∀ s e, classify_error s e true = .TIMEOUT) ∧
    (∀ s e, anyInfix envPatterns s = true →
      classify_error s e false = .ENVIRONMENT_ERROR) ∧
    (∀ s e, anyInfix envPatterns s = false → anyInfix pathPatterns s = true →
      classify_error s e false = .DATA_PATH_ERROR) ∧
    (∀ s e, anyInfix envPatterns s = false → anyInfix pathPatterns s = false →
      anyInfix statPatterns s = true →
      classify_error s e false = .STATISTICAL_ERROR) ∧
    (∀ s e, anyInfix envPatterns s = false → anyInfix pathPatterns s = false →
      anyInfix statPatterns s = false →
      (codeBugRegexHit s = true ∨ anyInfix codeBugSubstrings s = true) →
      classify_error s e false = .CODE_BUG) ∧
    (∀ s e, anyInfix envPatterns s = false → anyInfix pathPatterns s = false →
      anyInfix statPatterns s = false → codeBugRegexHit s = false →
      anyInfix codeBugSubstrings s = false →
      classify_error s e false = .UNKNOWN) ∧
    classify_error
      "The following object is masked from 'package:survival':\n\n    myeloma".data
      0 false = .UNKNOWN := by
  refine ⟨?_, ?_, ?_, ?_, ?_, ?_, by decide⟩
  · intro s e; simp [classify_error]
  · intro s e h; simp [classify_error, h]
  · intro s e h1 h2; simp [classify_error, h1, h2]
  · intro s e h1 h2 h3; simp [classify_error, h1, h2, h3]
  · intro s e h1 h2 h3 h4
    rcases h4 with h4 | h4 <;> simp [classify_error, h1, h2, h3, h4]
  · intro s e h1 h2 h3 h4 h5; simp [classify_error, h1, h2, h3, h4, h5]

/-- Witness for C3 at concrete stderr samples, one per taxonomy entry. -/
theorem C3_classify_first_match_order_witness :
    classify_error "x".data 1 true = .TIMEOUT ∧
    classify_error
      "Error in library(nonexistent) : there is no package called 'nonexistent'".data
      1 false = .ENVIRONMENT_ERROR ∧
    classify_error
      "Error in file(file, \"rt\") : cannot open connection to '/d/m.csv'".data
      1 false = .DATA_PATH_ERROR ∧
    classify_error
      "Error in solve.default(t(x) %*% x) : system is computationally singular".data
      1 false = .STATISTICAL_ERROR ∧
    classify_error "Error in foo() : bar".data 1 false = .CODE_BUG ∧
    classify_error "".data 1 false = .UNKNOWN := by
  refine ⟨C3_classify_first_match_order.1 _ _,
    C3_classify_first_match_order.2.1 _ _ (by decide),
    C3_classify_first_match_order.2.2.1 _ _ (by decide) (by decide),
    C3_classify_first_match_order.2.2.2.1 _ _ (by decide) (by decide)
      (by decide),
    C3_classify_first_match_order.2.2.2.2.1 _ _ (by decide) (by decide)
      (by decide) (Or.inl (by decide)),
    C3_classify_first_match_order.2.2.2.2.2.1 _ _ (by decide) (by decide)
      (by decide) (by decide) (by decide)⟩

/-- Generalised retry-bound lemma: if every generated script's execution
fails retriably, the loop consumes all its fuel, appending one attempt per
iteration with consecutive attempt numbers. -/
theorem retryGo_all_retriable_failures
    (gen : Option (List Char) → Nat → List Char)
    (exec : List Char → DockerResult)
    (hfail : ∀ pe n, failsRetriably (exec (gen pe n))) :
    ∀ fuel start acc le, ∃ l,
      retryGo gen exec fuel start acc le = .maxRetries (acc ++ l) ∧
      l.map (fun a => a.attempt_number) = List.range' start fuel := by
  intro fuel
  induction fuel with
  | zero =>
    intro start acc le
    exact ⟨[], by simp [retryGo], by simp⟩
  | succ fuel ih =>
    intro start acc le
    obtain ⟨hns, hret⟩ := hfail le start
    obtain ⟨l, hl, hmap⟩ := ih (start + 1)
      (acc ++ [⟨start, gen le start, some (filterResult (exec (gen le start))),
        some (classify_error (filterResult (exec (gen le start))).stderr
          (filterResult (exec (gen le start))).exit_code
          (filterResult (exec (gen le start))).timed_out)⟩])
      (some (filterResult (exec (gen le start))).stderr)
    refine ⟨⟨start, gen le start,
      some (filterResult (exec (gen le start))),
      some (classify_error (filterResult (exec (gen le start))).stderr
        (filterResult (exec (gen le start))).exit_code
        (filterResult (exec (gen le start))).timed_out)⟩ :: l, ?_, ?_⟩
    · simp only [retryGo, hns, Bool.false_eq_true, if_false, hret, if_true]
      rw [hl]; simp
    · simp [hmap, List.range'_succ]

/-- C4: with a `generate` whose scripts always fail retriably and any
`maxAttempts ≥ 1`, `execute_with_retry` raises the max-retries error whose
ledger has exactly `maxAttempts` attempts, numbered `1, …, maxAttempts` in
order. -/
theorem C4_retry_bound (gen : Option (List Char) → Nat → List Char)
    (exec : List Char → DockerResult) (max_attempts : Nat)
    (_hmax : 1 ≤ max_attempts)
    (hfail : ∀ pe n, failsRetriably (exec (gen pe n))) :
    ∃ l, execute_with_retry gen exec max_attempts = .maxRetries l ∧
      l.length = max_attempts ∧
      l.map (fun a => a.attempt_number) = List.range' 1 max_attempts := by
  obtain ⟨l, hl, hmap⟩ :=
    retryGo_all_retriable_failures gen exec hfail max_attempts 1 [] none
  refine ⟨l, by simpa [execute_with_retry] using hl, ?_, hmap⟩
  have := congrArg List.length hmap
  simpa using this

/-- Witness for C4: a constant generator whose script always exits 1 with
a `CODE_BUG` stderr signature, `maxAttempts = 3`. -/
theorem C4_retry_bound_witness :
    ∃ l, execute_with_retry (fun _ _ => "bad_script".data)
      (fun _ => ⟨1, [], "Error in foo() : bar".data, 0, false⟩) 3 =
        .maxRetries l ∧
      l.length = 3 ∧
      l.map (fun a => a.attempt_number) = List.range' 1 3 :=
  C4_retry_bound _ _ 3 (by decide) (fun _ _ => by
    constructor <;> decide)

/-- C5: when the first generated script fails non-retriably,
`execute_with_retry` raises the non-retriable error after exactly one
attempt, whatever `maxAttempts ≥ 1` is, and the error carries the
one-element ledger holding that failing attempt; the classification is
ENVIRONMENT_ERROR or STATISTICAL_ERROR. -/
theorem C5_non_retriable_short_circuit
    (gen : Option (List Char) → Nat → List Char)
    (exec : List Char → DockerResult) (max_attempts : Nat)
    (hmax : 1 ≤ max_attempts)
    (h1 : failsNonRetriably (exec (gen none 1))) :
    ∃ ec, execute_with_retry gen exec max_attempts =
      .nonRetriable ec
        [⟨1, gen none 1, some (filterResult (exec (gen none 1))), some ec⟩] ∧
      (ec = .ENVIRONMENT_ERROR ∨ ec = .STATISTICAL_ERROR) := by
  obtain ⟨hns, hret⟩ := h1
  obtain ⟨fuel, rfl⟩ : ∃ k, max_attempts = k + 1 :=
    ⟨max_attempts - 1, by omega⟩
  refine ⟨classify_error (filterResult (exec (gen none 1))).stderr
      (filterResult (exec (gen none 1))).exit_code
      (filterResult (exec (gen none 1))).timed_out, ?_, ?_⟩
  · simp only [execute_with_retry, retryGo, hns, Bool.false_eq_true,
      if_false, hret]
    simp
  · revert hret
    cases classify_error (filterResult (exec (gen none 1))).stderr
      (filterResult (exec (gen none 1))).exit_code
      (filterResult (exec (gen none 1))).timed_out <;> simp [is_retriable]

/-- Witness for C5: a script whose stderr carries the missing-R-package
environment signature, `maxAttempts = 3`. -/
theorem C5_non_retriable_short_circuit_witness :
    ∃ ec, execute_with_retry (fun _ _ => "env_script".data)
      (fun _ =>
        ⟨1, [], "Error in library(x) : there is no package called 'x'".data,
         0, false⟩) 3 =
      .nonRetriable ec
        [⟨1, "env_script".data,
          some ⟨1, [],
            "Error in library(x) : there is no package called 'x'".data,
            0, false⟩, some ec⟩] ∧
      (ec = .ENVIRONMENT_ERROR ∨ ec = .STATISTICAL_ERROR) := by
  have h := C5_non_retriable_short_circuit (fun _ _ => "env_script".data)
    (fun _ =>
      ⟨1, [], "Error in library(x) : there is no package called 'x'".data,
       0, false⟩) 3 (by decide) (by constructor <;> decide)
  simpa using h

/-- C7: the stats-stage tolerance boundaries are inclusive — `exact` is
within iff equal, `absolute` iff `|a − b| ≤ threshold` (equality at the
threshold is within, beyond is not), `relative` iff
`|a − b| ≤ threshold·max(|a|, |b|)` likewise — the declared metrics carry
their declared tolerance types, the stage matches iff every declared
metric is within tolerance, and there is one issue entry per failing
metric. -/
theorem C7_stats_tolerances :
    (∀ a b : ℚ, withinTol .exact a b = true ↔ a = b) ∧
    (∀ a b t : ℚ, withinTol (.absolute t) a b = true ↔ |a - b| ≤ t) ∧
    (∀ a b t : ℚ, withinTol (.relative t) a b = true ↔
      |a - b| ≤ t * max |a| |b|) ∧
    (∀ a b t : ℚ, |a - b| = t → withinTol (.absolute t) a b = true) ∧
    (∀ a b t : ℚ, t < |a - b| → withinTol (.absolute t) a b = false) ∧
    (∀ a b t : ℚ, |a - b| = t * max |a| |b| →
      withinTol (.relative t) a b = true) ∧
    (∀ a b t : ℚ, t * max |a| |b| < |a - b| →
      withinTol (.relative t) a b = false) ∧
    (∀ v w : ℚ, statsWithin "n_subjects" v w = withinTol .exact v w) ∧
    (∀ v w : ℚ, statsWithin "n_events" v w = withinTol .exact v w) ∧
    (∀ v w : ℚ, statsWithin "n_censored" v w = withinTol .exact v w) ∧
    (∀ v w : ℚ, statsWithin "logrank_p" v w =
      withinTol (.absolute (1 / 1000)) v w) ∧
    (∀ v w : ℚ, statsWithin "cox_hr" v w =
      withinTol (.relative (1 / 1000)) v w) ∧
    (∀ v w : ℚ, statsWithin "km_median_treatment" v w =
      withinTol (.absolute (1 / 2)) v w) ∧
    (∀ v w : ℚ, statsWithin "km_median_placebo" v w =
      withinTol (.absolute (1 / 2)) v w) ∧
    (∀ ra rb : StatsResults,
      ((compare_stats ra rb).matches' = true ↔
        ∀ m ∈ statsMetricList ra rb, statsWithin m.1 m.2.1 m.2.2 = true) ∧
      (compare_stats ra rb).issues.length =
        ((statsMetricList ra rb).filter fun m =>
          ! statsWithin m.1 m.2.1 m.2.2).length) := by
  refine ⟨?_, ?_, ?_, ?_, ?_, ?_, ?_,
    fun v w => rfl, fun v w => rfl, fun v w => rfl, fun v w => rfl,
    fun v w => rfl, fun v w => rfl, fun v w => rfl, ?_⟩
  · intro a b; simp [withinTol]
  · intro a b t; simp [withinTol]
  · intro a b t; simp [withinTol]
  · intro a b t h; simp [withinTol, h]
  · intro a b t h; simp [withinTol]; linarith
  · intro a b t h; simp [withinTol, h]
  · intro a b t h; simp [withinTol]; linarith
  · intro ra rb
    refine ⟨?_, by simp [compare_stats]⟩
    simp only [compare_stats, beq_iff_eq, List.length_eq_zero,
      List.map_eq_nil_iff, List.filter_eq_nil_iff]
    constructor
    · intro h m hm
      have := h m hm
      simpa using this
    · intro h m hm
      simpa using h m hm

/-- Witness for C7's universally quantified parts, at the declared
thresholds: `logrank_p` differing by exactly `0.001` is within tolerance,
by more is not; `cox_hr` differing by exactly the relative threshold is
within, beyond is not; `n_events` within iff equal. -/
theorem C7_stats_tolerances_witness :
    statsWithin "logrank_p" (1 / 1000) 0 = true ∧
    statsWithin "logrank_p" (2 / 1000) 0 = false ∧
    statsWithin "cox_hr" 1 (999 / 1000) = true ∧
    statsWithin "cox_hr" 1 (900 / 1000) = false ∧
    statsWithin "n_events" 180 180 = true ∧
    statsWithin "n_events" 180 181 = false := by
  have habs1 : |(1 / 1000 : ℚ) - 0| = 1 / 1000 := by
    rw [sub_zero]; exact abs_of_nonneg (by norm_num)
  have habs2 : (1 / 1000 : ℚ) < |(2 / 1000 : ℚ) - 0| := by
    rw [sub_zero, abs_of_nonneg (by norm_num : (0 : ℚ) ≤ 2 / 1000)]
    norm_num
  have hmax1 : max |(1 : ℚ)| |(999 / 1000 : ℚ)| = 1 := by
    rw [abs_of_nonneg (by norm_num : (0 : ℚ) ≤ (1 : ℚ)),
      abs_of_nonneg (by norm_num : (0 : ℚ) ≤ 999 / 1000)]
    exact max_eq_left (by norm_num)
  have hmax2 : max |(1 : ℚ)| |(900 / 1000 : ℚ)| = 1 := by
    rw [abs_of_nonneg (by norm_num : (0 : ℚ) ≤ (1 : ℚ)),
      abs_of_nonneg (by norm_num : (0 : ℚ) ≤ 900 / 1000)]
    exact max_eq_left (by norm_num)
  have habs3 : |(1 : ℚ) - 999 / 1000| = 1 / 1000 * max |(1 : ℚ)| |(999 / 1000 : ℚ)| := by
    rw [hmax1, show (1 : ℚ) - 999 / 1000 = 1 / 1000 by norm_num,
      abs_of_nonneg (by norm_num : (0 : ℚ) ≤ 1 / 1000)]
    norm_num
  have habs4 : (1 / 1000 : ℚ) * max |(1 : ℚ)| |(900 / 1000 : ℚ)| <
      |(1 : ℚ) - 900 / 1000| := by
    rw [hmax2, show (1 : ℚ) - 900 / 1000 = 1 / 10 by norm_num,
      abs_of_nonneg (by norm_num : (0 : ℚ) ≤ 1 / 10)]
    norm_num
  refine ⟨?_, ?_, ?_, ?_, ?_, ?_⟩
  · rw [C7_stats_tolerances.2.2.2.2.2.2.2.2.2.2.1]
    exact C7_stats_tolerances.2.2.2.1 _ _ _ habs1
  · rw [C7_stats_tolerances.2.2.2.2.2.2.2.2.2.2.1]
    exact C7_stats_tolerances.2.2.2.2.1 _ _ _ habs2
  · rw [C7_stats_tolerances.2.2.2.2.2.2.2.2.2.2.2.1]
    exact C7_stats_tolerances.2.2.2.2.2.1 _ _ _ habs3
  · rw [C7_stats_tolerances.2.2.2.2.2.2.2.2.2.2.2.1]
    exact C7_stats_tolerances.2.2.2.2.2.2.1 _ _ _ habs4
  · rw [C7_stats_tolerances.2.2.2.2.2.2.2.2.1]
    exact (C7_stats_tolerances.1 _ _).mpr rfl
  · rw [C7_stats_tolerances.2.2.2.2.2.2.2.2.1]
    exact Bool.eq_false_iff.mpr fun hc => by
      have := (C7_stats_tolerances.1 (180 : ℚ) 181).mp hc
      norm_num at this

/-- The `_diagnose` key loop returns `track_b` whenever no key of the
priority list is present in both summaries with different values. -/
theorem diagnoseGo_no_signal (a b : List (String × ℚ)) :
    ∀ ks : List String,
      (∀ k ∈ ks, ∀ x y : ℚ, List.lookup k a = some x →
        List.lookup k b = some y → x = y) →
      diagnoseGo a b ks = "track_b"
  | [], _ => rfl
  | k :: ks, h => by
    have htail : ∀ k' ∈ ks, ∀ x y : ℚ, List.lookup k' a = some x →
        List.lookup k' b = some y → x = y :=
      fun k' hk' => h k' (List.mem_cons_of_mem _ hk')
    cases hka : List.lookup k a with
    | none =>
      simp only [diagnoseGo, hka]
      exact diagnoseGo_no_signal a b ks htail
    | some av =>
      cases hkb : List.lookup k b with
      | none =>
        simp only [diagnoseGo, hka, hkb]
        exact diagnoseGo_no_signal a b ks htail
      | some bv =>
        have heq : av = bv := h k (List.mem_cons_self _ _) av bv hka hkb
        simp only [diagnoseGo, hka, hkb, heq, ne_eq, not_true_eq_false,
          if_false, ite_self]
        exact diagnoseGo_no_signal a b ks htail

/-- C8 counterexample: in an ADaM-stage disagreement whose summaries agree
on `n_rows` but whose event count (`n_events`) is strictly smaller for
track A, `_diagnose` returns `track_b` — the event count, although a
count-like metric, is never consulted, so the claim "returns the track
whose count-like metric (row, subject, or event count) is strictly
smaller" fails at this input. -/
theorem C8_diagnose_counterexample :
    diagnoseTrack
      ⟨"adam", false, ["n_events mismatch"],
        [("n_rows", 300), ("n_events", 100)],
        [("n_rows", 300), ("n_events", 120)]⟩ = "track_b" ∧
    List.lookup "n_events"
      [(("n_rows" : String), (300 : ℚ)), ("n_events", 100)] = some 100 ∧
    List.lookup "n_events"
      [(("n_rows" : String), (300 : ℚ)), ("n_events", 120)] = some 120 ∧
    (100 : ℚ) < 120 := by
  refine ⟨by decide, by decide, by decide, by norm_num⟩

/-- C8 (amended): `_diagnose` consults only the keys `dm_rows`, `n_rows`,
`subjects`, in that priority order; at the first of them present in both
summaries with different values it returns the strictly smaller side's
track; if none of the three differs (event counts and all other keys are
never consulted) it returns `track_b`; and with summaries
`{n_rows: 298}` vs `{n_rows: 300}` it returns `track_a`. -/
theorem C8_diagnose_amended :
    (∀ d : StageComparison, ∀ av bv : ℚ,
      List.lookup "dm_rows" d.track_a_summary = some av →
      List.lookup "dm_rows" d.track_b_summary = some bv → av ≠ bv →
      diagnoseTrack d = if av < bv then "track_a" else "track_b") ∧
    (∀ d : StageComparison, ∀ av bv : ℚ,
      (∀ x y : ℚ, List.lookup "dm_rows" d.track_a_summary = some x →
        List.lookup "dm_rows" d.track_b_summary = some y → x = y) →
      List.lookup "n_rows" d.track_a_summary = some av →
      List.lookup "n_rows" d.track_b_summary = some bv → av ≠ bv →
      diagnoseTrack d = if av < bv then "track_a" else "track_b") ∧
    (∀ d : StageComparison, ∀ av bv : ℚ,
      (∀ x y : ℚ, List.lookup "dm_rows" d.track_a_summary = some x →
        List.lookup "dm_rows" d.track_b_summary = some y → x = y) →
      (∀ x y : ℚ, List.lookup "n_rows" d.track_a_summary = some x →
        List.lookup "n_rows" d.track_b_summary = some y → x = y) →
      List.lookup "subjects" d.track_a_summary = some av →
      List.lookup "subjects" d.track_b_summary = some bv → av ≠ bv →
      diagnoseTrack d = if av < bv then "track_a" else "track_b") ∧
    (∀ d : StageComparison,
      (∀ k ∈ diagnoseKeys, ∀ x y : ℚ,
        List.lookup k d.track_a_summary = some x →
        List.lookup k d.track_b_summary = some y → x = y) →
      diagnoseTrack d = "track_b") ∧
    diagnoseTrack
      ⟨"adam", false, [], [("n_rows", 298)], [("n_rows", 300)]⟩ =
      "track_a" := by
  refine ⟨?_, ?_, ?_, ?_, by decide⟩
  · intro d av bv ha hb hne
    simp [diagnoseTrack, diagnoseKeys, diagnoseGo, ha, hb, hne]
  · intro d av bv hdm ha hb hne
    cases hda : List.lookup "dm_rows" d.track_a_summary with
    | none =>
      simp [diagnoseTrack, diagnoseKeys, diagnoseGo, hda, ha, hb, hne]
    | some x =>
      cases hdb : List.lookup "dm_rows" d.track_b_summary with
      | none =>
        simp [diagnoseTrack, diagnoseKeys, diagnoseGo, hda, hdb, ha, hb, hne]
      | some y =>
        have hxy := hdm x y hda hdb
        simp [diagnoseTrack, diagnoseKeys, diagnoseGo, hda, hdb, hxy, ha,
          hb, hne]
  · intro d av bv hdm hnr ha hb hne
    have step1 : diagnoseGo d.track_a_summary d.track_b_summary
        ["dm_rows", "n_rows", "subjects"] =
        diagnoseGo d.track_a_summary d.track_b_summary
          ["n_rows", "subjects"] := by
      cases hda : List.lookup "dm_rows" d.track_a_summary with
      | none => simp [diagnoseGo, hda]
      | some x =>
        cases hdb : List.lookup "dm_rows" d.track_b_summary with
        | none => simp [diagnoseGo, hda, hdb]
        | some y =>
          have hxy := hdm x y hda hdb
          simp [diagnoseGo, hda, hdb, hxy]
    have step2 : diagnoseGo d.track_a_summary d.track_b_summary
        ["n_rows", "subjects"] =
        diagnoseGo d.track_a_summary d.track_b_summary ["subjects"] := by
      cases hna : List.lookup "n_rows" d.track_a_summary with
      | none => simp [diagnoseGo, hna]
      | some x =>
        cases hnb : List.lookup "n_rows" d.track_b_summary with
        | none => simp [diagnoseGo, hna, hnb]
        | some y =>
          have hxy := hnr x y hna hnb
          simp [diagnoseGo, hna, hnb, hxy]
    show diagnoseGo _ _ diagnoseKeys = _
    rw [show diagnoseKeys = ["dm_rows", "n_rows", "subjects"] from rfl,
      step1, step2]
    simp [diagnoseGo, ha, hb, hne]
  · intro d h
    exact diagnoseGo_no_signal d.track_a_summary d.track_b_summary
      diagnoseKeys h

/-- Witness for C8's amended statement: the priority rule applied at the
claim's own concrete example, and the no-signal default at a stats-stage
summary pair without count keys. -/
theorem C8_diagnose_amended_witness :
    diagnoseTrack
      ⟨"adam", false, [], [("n_rows", 298), ("n_events", 150)],
        [("n_rows", 300), ("n_events", 150)]⟩ = "track_a" ∧
    diagnoseTrack ⟨"stats", false, [], [], []⟩ = "track_b" := by
  have hnone : List.lookup "dm_rows"
      [(("n_rows" : String), (298 : ℚ)), ("n_events", 150)] = none := by
    decide
  constructor
  · have h := C8_diagnose_amended.2.1
      ⟨"adam", false, [], [("n_rows", 298), ("n_events", 150)],
        [("n_rows", 300), ("n_events", 150)]⟩
      298 300
      (fun x y hx _ => by rw [hnone] at hx; exact Option.noConfusion hx)
      (by decide) (by decide) (by norm_num)
    rw [h]
    norm_num
  · exact C8_diagnose_amended.2.2.2.1 ⟨"stats", false, [], [], []⟩
      (fun k _ x y hx _ => Option.noConfusion hx)

/-- Resolution-loop lemma: when every comparison pass reports some
disagreement, the loop always burns all its fuel and falls back to the
fixed convention `track_a`. -/
theorem resolveGo_never_agrees {σ : Type}
    (rerun : String → StageComparison → σ → σ)
    (compareAll : σ → List StageComparison) (max_iterations : Nat)
    (hdis : ∀ s, has_disagreement (compareAll s) = true) :
    ∀ fuel iteration cur s,
      (resolveGo rerun compareAll max_iterations fuel iteration cur
        s).resolved = false ∧
      (resolveGo rerun compareAll max_iterations fuel iteration cur
        s).iterations = max_iterations ∧
      (resolveGo rerun compareAll max_iterations fuel iteration cur
        s).winning_track = some "track_a" := by
  intro fuel
  induction fuel with
  | zero =>
    intro iteration cur s
    exact ⟨rfl, rfl, rfl⟩
  | succ fuel ih =>
    intro iteration cur s
    have h := hdis (rerun (diagnoseTrack cur) cur s)
    obtain ⟨c2, hc2⟩ : ∃ c2,
        (compareAll (rerun (diagnoseTrack cur) cur s)).find?
          (fun c => ! c.matches') = some c2 := by
      have hex := List.any_eq_true.mp h
      obtain ⟨x, hx, hpx⟩ := hex
      have : ((compareAll (rerun (diagnoseTrack cur) cur s)).find?
          (fun c => ! c.matches')).isSome := by
        rw [List.find?_isSome]
        exact ⟨x, hx, hpx⟩
      exact Option.isSome_iff_exists.mp this
    simp only [resolveGo, hc2]
    exact ih (iteration + 1) c2 (rerun (diagnoseTrack cur) cur s)

/-- C9: when `compareAll` never reports full agreement, `resolve` exhausts
`maxIterations` and returns `resolved = false`,
`iterations = maxIterations`, and the fixed-convention fallback winner
`track_a` (in particular the winning track is never null, the convention
always applying). -/
theorem C9_resolution_exhaustion {σ : Type}
    (rerun : String → StageComparison → σ → σ)
    (compareAll : σ → List StageComparison)
    (hdis : ∀ s, has_disagreement (compareAll s) = true)
    (max_iterations : Nat) (disagreement : StageComparison) (s0 : σ) :
    (resolve rerun compareAll max_iterations disagreement s0).resolved =
      false ∧
    (resolve rerun compareAll max_iterations disagreement s0).iterations =
      max_iterations ∧
    (resolve rerun compareAll max_iterations disagreement s0).winning_track =
      some "track_a" :=
  resolveGo_never_agrees rerun compareAll max_iterations hdis
    max_iterations 1 disagreement s0

/-- Witness for C9: a two-iteration loop over a unit state whose
comparison always contains one mismatching stage. -/
theorem C9_resolution_exhaustion_witness :
    (resolve (fun _ _ _ => ()) (fun _ => [⟨"sdtm", false, [], [], []⟩]) 2
      ⟨"sdtm", false, [], [], []⟩ ()).resolved = false ∧
    (resolve (fun _ _ _ => ()) (fun _ => [⟨"sdtm", false, [], [], []⟩]) 2
      ⟨"sdtm", false, [], [], []⟩ ()).iterations = 2 ∧
    (resolve (fun _ _ _ => ()) (fun _ => [⟨"sdtm", false, [], [], []⟩]) 2
      ⟨"sdtm", false, [], [], []⟩ ()).winning_track = some "track_a" :=
  C9_resolution_exhaustion (fun _ _ _ => ())
    (fun _ => [⟨"sdtm", false, [], [], []⟩])
    (fun _ => by
      show has_disagreement [⟨"sdtm", false, [], [], []⟩] = true
      decide) 2
    ⟨"sdtm", false, [], [], []⟩ ()

/-- C2 counterexample: with an empty cache and an executor whose runs all
fail with a CODE_BUG signature, the step ends in the max-retries error —
every execution of the generated script failed — yet the cache holds that
script under the step's key, because `_run_agent` stores it at generation
time, before the first execution.  This falsifies "a script whose
execution attempt fails is never the value stored under that step's cache
key". -/
theorem C2_cache_counterexample :
    cacheGet
      (run_agent (fun (_ : Unit) => "the_script".data) (fun c _ _ => c)
        ("cfg", "sdtm", "track_a") ()
        (fun _ => ⟨1, [], "Error in foo() : bar".data, 0, false⟩) 3 []).2
      ("cfg", "sdtm", "track_a") = some "the_script".data ∧
    (run_agent (fun (_ : Unit) => "the_script".data) (fun c _ _ => c)
        ("cfg", "sdtm", "track_a") ()
        (fun _ => ⟨1, [], "Error in foo() : bar".data, 0, false⟩) 3 []).1 =
      .maxRetries
        [⟨1, "the_script".data,
          some ⟨1, [], "Error in foo() : bar".data, 0, false⟩,
          some .CODE_BUG⟩,
         ⟨2, "the_script".data,
          some ⟨1, [], "Error in foo() : bar".data, 0, false⟩,
          some .CODE_BUG⟩,
         ⟨3, "the_script".data,
          some ⟨1, [], "Error in foo() : bar".data, 0, false⟩,
          some .CODE_BUG⟩] := by
  constructor <;> decide

/-- After the first attempt the `generate_code` closure never touches the
cache again: for attempt numbers ≥ 2 the whole remaining loop leaves the
cache unchanged. -/
theorem runAgentGo_cache_stable {Ctx : Type} (llmGen : Ctx → List Char)
    (makeRetryCtx : Ctx → List Char → Nat → Ctx) (key : CacheKey)
    (baseCtx : Ctx) (exec : List Char → DockerResult) :
    ∀ fuel n acc le cache, 2 ≤ n →
      (runAgentGo llmGen makeRetryCtx key baseCtx exec fuel n acc le
        cache).2 = cache := by
  intro fuel
  induction fuel with
  | zero => intro n acc le cache _; rfl
  | succ fuel ih =>
    intro n acc le cache hn
    have hcond : ¬ (n = 1 ∧ le = none) := fun h => by omega
    simp only [runAgentGo, generate_code, if_neg hcond]
    split
    · rfl
    · split
      · exact ih (n + 1) _ _ cache (by omega)
      · rfl

/-- C2 (amended): on a cache miss the generated script is stored under the
step's key immediately after its generation on the first attempt — before
any execution — and regardless of how the executions then go (success,
retries, non-retriable failure or retry exhaustion) the cache ends up
holding exactly that first generated script; retry-attempt scripts are
never stored. -/
theorem C2_cache_stores_at_generation {Ctx : Type}
    (llmGen : Ctx → List Char) (makeRetryCtx : Ctx → List Char → Nat → Ctx)
    (key : CacheKey) (baseCtx : Ctx) (exec : List Char → DockerResult)
    (max_attempts : Nat) (cache : Cache)
    (hmiss : cacheGet cache key = none) (hmax : 1 ≤ max_attempts) :
    (run_agent llmGen makeRetryCtx key baseCtx exec max_attempts cache).2 =
      cachePut cache key (llmGen baseCtx) := by
  obtain ⟨k, rfl⟩ : ∃ k, max_attempts = k + 1 := ⟨max_attempts - 1, by omega⟩
  have hcond : ((1 : Nat) = 1 ∧ (none : Option (List Char)) = none) :=
    ⟨rfl, rfl⟩
  simp only [run_agent, runAgentGo, generate_code, if_pos hcond, hmiss,
    and_self, ite_true]
  cases hs : isSuccessResult (filterResult (exec (llmGen baseCtx))) with
  | true => simp [hs]
  | false =>
    cases hr : is_retriable (classify_error
        (filterResult (exec (llmGen baseCtx))).stderr
        (filterResult (exec (llmGen baseCtx))).exit_code
        (filterResult (exec (llmGen baseCtx))).timed_out) with
    | true =>
      simp only [hs, hr, Bool.false_eq_true, if_false, if_true]
      exact runAgentGo_cache_stable llmGen makeRetryCtx key baseCtx exec
        k 2 _ _ _ (by omega)
    | false => simp [hs, hr]

/-- Witness for C2's amended statement: the counterexample scenario,
driven through the general theorem. -/
theorem C2_cache_stores_at_generation_witness :
    (run_agent (fun (_ : Unit) => "the_script".data) (fun c _ _ => c)
      ("cfg", "sdtm", "track_a") ()
      (fun _ => ⟨1, [], "Error in foo() : bar".data, 0, false⟩) 3 []).2 =
    cachePut [] ("cfg", "sdtm", "track_a") "the_script".data :=
  C2_cache_stores_at_generation (fun (_ : Unit) => "the_script".data)
    (fun c _ _ => c) ("cfg", "sdtm", "track_a") ()
    (fun _ => ⟨1, [], "Error in foo() : bar".data, 0, false⟩) 3 []
    rfl (by omega)

/-- C1: evaluation of the code at the failing situation.  A first run of
the agent step with a hint-free context (`false`) caches the script it
generated.  The resolution re-run then calls `_run_agent` with the
`ResolutionHint` injected into the agent context (`true`) — but on
attempt 1 the retry controller passes `previous_error = None`, so the
`generate_code` closure's cache check fires first and returns the cached
script: the executed script is `plain_script`, generated without the
hint, not the `hinted_script` that generation with the hint in context
would produce.  The hint never reaches any script generation. -/
theorem C1_rerun_executes_cached_script_without_hint :
    (run_agent hintSensitiveGen keepCtx ("cfg", "adam", "track_b") true
      okExec 3
      (run_agent hintSensitiveGen keepCtx ("cfg", "adam", "track_b") false
        okExec 3 []).2).1 =
      .success "ok".data
        [⟨1, "plain_script".data, some ⟨0, "ok".data, [], 0, false⟩,
          none⟩] ∧
    hintSensitiveGen true = "hinted_script".data ∧
    "plain_script".data ≠ "hinted_script".data := by
  refine ⟨by decide, by decide, by decide⟩

/-- C10 counterexample: a stage directory missing `DM.csv` whose `VS.csv`
exists with a failing row count.  `validate_sdtm` raises carrying only the
existence issue; the VS row-count check — performable and failing on this
directory — is never run, so its issue is absent from the raised list,
falsifying "all validation checks are performed and their issues collected
before raising". -/
theorem C10_validator_counterexample :
    validate_sdtm none (some [[("USUBJID", "S1")]]) 300 =
      .error [SdtmIssue.dmNotFound] ∧
    ((([[("USUBJID", "S1")]] : CsvFile).length : Int) ≠ 300 * 26) ∧
    SdtmIssue.vsRowCount (300 * 26) 1 ∉ [SdtmIssue.dmNotFound] := by
  refine ⟨rfl, by decide, by decide⟩

/-- C10 (amended): within each phase the checks are additive.
`validate_sdtm` raises all existence issues together when a file is
missing, succeeds when both files exist and no content check fails, and
otherwise raises exactly the collected issues of all failing content
checks — in particular every failing column, row-count, terminology and
referential-integrity check contributes its issue to the one raised list.
`validate_adam` does the same per phase: once the ADTTE files exist and
parse, the raised list is exactly the ADSL issues followed by all ADTTE
content issues; a missing ADTTE file raises right after the existence
checks with the issues collected so far. -/
theorem C10_validator_phased_additivity :
    (∀ e : Int,
      validate_sdtm none none e = .error [.dmNotFound, .vsNotFound]) ∧
    (∀ dm vs e, sdtmContentIssues dm vs e = [] →
      validate_sdtm (some dm) (some vs) e = .ok ()) ∧
    (∀ dm vs e l, validate_sdtm (some dm) (some vs) e = .error l →
      l = sdtmContentIssues dm vs e ∧
      (∀ i ∈ check_columns (csvCols dm) REQUIRED_DM_COLS "DM", i ∈ l) ∧
      (∀ i ∈ check_columns (csvCols vs) REQUIRED_VS_COLS "VS", i ∈ l) ∧
      ((dm.length : Int) ≠ e → SdtmIssue.dmRowCount e dm.length ∈ l) ∧
      ((vs.length : Int) ≠ e * 26 →
        SdtmIssue.vsRowCount (e * 26) vs.length ∈ l) ∧
      ((csvCols dm).contains "SEX" = true →
        (invalidValues dm "SEX" VALID_SEX).isEmpty = false →
        SdtmIssue.invalidSex (invalidValues dm "SEX" VALID_SEX) ∈ l) ∧
      ((csvCols dm).contains "RACE" = true →
        (invalidValues dm "RACE" VALID_RACE).isEmpty = false →
        SdtmIssue.invalidRace (invalidValues dm "RACE" VALID_RACE) ∈ l)) ∧
    (∀ adslCsv adslSum (s : ADTTESummary) e req l,
      validate_adam adslCsv adslSum true (some (some s)) e req = .error l →
      l = adslIssues adslCsv adslSum e req ++ adtteContentIssues s e) ∧
    (∀ adslCsv adslSum e req,
      validate_adam adslCsv adslSum false none e req =
        .error (adslIssues adslCsv adslSum e req ++
          [.adtteRdsNotFound, .adtteSummaryNotFound])) := by
  refine ⟨fun e => rfl, ?_, ?_, ?_, ?_⟩
  · intro dm vs e h
    simp [validate_sdtm, h]
  · intro dm vs e l h
    have hl : l = sdtmContentIssues dm vs e := by
      by_cases hemp : (sdtmContentIssues dm vs e).isEmpty
      · simp [validate_sdtm, hemp] at h
      · simp [validate_sdtm, hemp] at h
        exact h.symm
    subst hl
    refine ⟨rfl, ?_, ?_, ?_, ?_, ?_, ?_⟩
    · intro i hi
      simp only [sdtmContentIssues, List.mem_append]
      exact Or.inl (Or.inl (Or.inl (Or.inl (Or.inl (Or.inl hi)))))
    · intro i hi
      simp only [sdtmContentIssues, List.mem_append]
      exact Or.inl (Or.inl (Or.inl (Or.inl (Or.inl (Or.inr hi)))))
    · intro hne
      simp only [sdtmContentIssues, List.mem_append]
      exact Or.inl (Or.inl (Or.inl (Or.inl (Or.inr (by simp [hne])))))
    · intro hne
      simp only [sdtmContentIssues, List.mem_append]
      exact Or.inl (Or.inl (Or.inl (Or.inr (by simp [hne]))))
    · intro hsex hbad
      simp only [sdtmContentIssues, List.mem_append]
      refine Or.inl (Or.inl (Or.inr ?_))
      rw [if_pos hsex, if_neg (by simp [hbad])]
      exact List.mem_singleton.mpr rfl
    · intro hrace hbad
      simp only [sdtmContentIssues, List.mem_append]
      refine Or.inl (Or.inr ?_)
      rw [if_pos hrace, if_neg (by simp [hbad])]
      exact List.mem_singleton.mpr rfl
  · intro adslCsv adslSum s e req l h
    by_cases hemp :
        (adslIssues adslCsv adslSum e req ++ adtteContentIssues s e).isEmpty
    · simp [validate_adam, hemp] at h
    · simp [validate_adam, hemp] at h
      exact h.symm
  · intro adslCsv adslSum e req
    simp [validate_adam]

/-- Witness for C10's amended statement: a directory whose DM has a wrong
row count and an invalid SEX value while VS is fine — both issues appear
in the one raised list. -/
theorem C10_validator_phased_additivity_witness :
    ∃ l, validate_sdtm
      (some [[("USUBJID", "S1"), ("SEX", "Q")]])
      (some []) 2 = .error l ∧
      SdtmIssue.dmRowCount 2 1 ∈ l ∧
      SdtmIssue.invalidSex ["Q"] ∈ l := by
  obtain ⟨heq, _, _, hdm, _, hsex, _⟩ :=
    C10_validator_phased_additivity.2.2.1
      [[("USUBJID", "S1"), ("SEX", "Q")]] [] 2
      (sdtmContentIssues [[("USUBJID", "S1"), ("SEX", "Q")]] [] 2)
      (by rfl)
  exact ⟨sdtmContentIssues [[("USUBJID", "S1"), ("SEX", "Q")]] [] 2,
    by rfl, hdm (by decide), hsex (by decide) rfl⟩

/-- Lines produced by `pySplitlines` contain no line-boundary characters. -/
theorem pySplitlines_no_break :
    ∀ s : List Char, ∀ l ∈ pySplitlines s, ∀ c ∈ l, pyLineBreak c = false
  | [] => by simp [pySplitlines]
  | [c] => by
    by_cases hc : pyLineBreak c = true
    · simp [pySplitlines, hc]
    · simp only [Bool.not_eq_true] at hc
      simp [pySplitlines, hc]
  | c :: c2 :: rest => by
    by_cases hrn : c = '\r' ∧ c2 = '\n'
    · simp only [pySplitlines, if_pos hrn]
      intro l hl
      rcases List.mem_cons.mp hl with rfl | hl2
      · simp
      · exact pySplitlines_no_break rest l hl2
    · simp only [pySplitlines, if_neg hrn]
      by_cases hbc : pyLineBreak c = true
      · simp only [if_pos hbc]
        intro l hl
        rcases List.mem_cons.mp hl with rfl | hl2
        · simp
        · exact pySplitlines_no_break (c2 :: rest) l hl2
      · have hbc' : pyLineBreak c = false := by
          simpa using hbc
        simp only [hbc', Bool.false_eq_true, if_false]
        cases hsp : pySplitlines (c2 :: rest) with
        | nil =>
          simp only [hsp]
          intro l hl
          rcases List.mem_singleton.mp hl with rfl
          intro ch hch
          rcases List.mem_singleton.mp hch with rfl
          exact hbc'
        | cons l0 ls =>
          simp only [hsp]
          intro l hl
          rcases List.mem_cons.mp hl with rfl | hl2
          · intro ch hch
            rcases List.mem_cons.mp hch with rfl | hch2
            · exact hbc'
            · exact pySplitlines_no_break (c2 :: rest) l0
                (by rw [hsp]; exact List.mem_cons_self _ _) ch hch2
          · exact pySplitlines_no_break (c2 :: rest) l
              (by rw [hsp]; exact List.mem_cons_of_mem _ hl2)

/-- A nonempty, boundary-free string splits into itself as its one line. -/
theorem pySplitlines_of_no_break :
    ∀ l : List Char, l ≠ [] → (∀ c ∈ l, pyLineBreak c = false) →
      pySplitlines l = [l]
  | [], hne, _ => absurd rfl hne
  | [c], _, h => by
    simp [pySplitlines, h c (List.mem_singleton.mpr rfl)]
  | c :: c2 :: rest, _, h => by
    have hc : pyLineBreak c = false := h c (List.mem_cons_self _ _)
    have hrn : ¬ (c = '\r' ∧ c2 = '\n') := by
      rintro ⟨rfl, -⟩
      simp [pyLineBreak] at hc
    have ih := pySplitlines_of_no_break (c2 :: rest) (by simp)
      (fun ch hch => h ch (List.mem_cons_of_mem _ hch))
    simp only [pySplitlines, if_neg hrn, hc, Bool.false_eq_true, if_false, ih]

/-- Splitting a boundary-free line, a newline, and a nonempty remainder
peels off exactly that line. -/
theorem pySplitlines_append_newline :
    ∀ l : List Char, (∀ c ∈ l, pyLineBreak c = false) →
      ∀ s : List Char, s ≠ [] →
        pySplitlines (l ++ '\n' :: s) = l :: pySplitlines s
  | [], _, s, hs => by
    cases s with
    | nil => exact absurd rfl hs
    | cons c2 rest =>
      show pySplitlines ('\n' :: c2 :: rest) = [] :: pySplitlines (c2 :: rest)
      simp only [pySplitlines]
      rw [if_neg (by rintro ⟨h, -⟩; exact absurd h (by decide))]
      rw [if_pos (by decide : pyLineBreak '\n' = true)]
  | [c], h, s, hs => by
    have hc : pyLineBreak c = false := h c (List.mem_singleton.mpr rfl)
    have hcr : c ≠ '\r' := by
      rintro rfl; simp [pyLineBreak] at hc
    have h0 := pySplitlines_append_newline [] (by simp) s hs
    simp only [List.nil_append] at h0
    show pySplitlines (c :: '\n' :: s) = [c] :: pySplitlines s
    simp only [pySplitlines]
    rw [if_neg (by rintro ⟨h1, -⟩; exact hcr h1), hc]
    simp only [Bool.false_eq_true, if_false]
    rw [h0]
  | c :: c2 :: l', h, s, hs => by
    have hc : pyLineBreak c = false := h c (List.mem_cons_self _ _)
    have hcr : c ≠ '\r' := by
      rintro rfl; simp [pyLineBreak] at hc
    have ih' : pySplitlines (c2 :: (l' ++ '\n' :: s)) =
        (c2 :: l') :: pySplitlines s :=
      pySplitlines_append_newline (c2 :: l')
        (fun ch hch => h ch (List.mem_cons_of_mem _ hch)) s hs
    show pySplitlines (c :: c2 :: (l' ++ '\n' :: s)) =
      (c :: c2 :: l') :: pySplitlines s
    simp only [pySplitlines]
    rw [if_neg (by rintro ⟨h1, -⟩; exact hcr h1), hc]
    simp only [Bool.false_eq_true, if_false]
    rw [ih']

/-- `joinLines` of a list whose first line is nonempty is nonempty. -/
theorem joinLines_ne_nil :
    ∀ (l : List Char) (ls : List (List Char)), l ≠ [] →
      joinLines (l :: ls) ≠ []
  | l, [], hne => by simpa [joinLines] using hne
  | l, l2 :: ls, hne => by
    cases l with
    | nil => exact absurd rfl hne
    | cons c cs => simp [joinLines]

/-- Round trip: splitting the newline-join of nonempty, boundary-free
lines recovers them. -/
theorem pySplitlines_joinLines :
    ∀ K : List (List Char), K ≠ [] →
      (∀ l ∈ K, l ≠ [] ∧ ∀ c ∈ l, pyLineBreak c = false) →
      pySplitlines (joinLines K) = K
  | [], hne, _ => absurd rfl hne
  | [l], _, hK => by
    obtain ⟨hl, hnb⟩ := hK l (List.mem_singleton.mpr rfl)
    simpa [joinLines] using pySplitlines_of_no_break l hl hnb
  | l :: l2 :: K', _, hK => by
    obtain ⟨hl, hnb⟩ := hK l (List.mem_cons_self _ _)
    have hK' : ∀ m ∈ l2 :: K', m ≠ [] ∧ ∀ c ∈ m, pyLineBreak c = false :=
      fun m hm => hK m (List.mem_cons_of_mem _ hm)
    have hl2 : l2 ≠ [] := (hK' l2 (List.mem_cons_self _ _)).1
    have ih := pySplitlines_joinLines (l2 :: K') (by simp) hK'
    simp only [joinLines]
    rw [pySplitlines_append_newline l hnb (joinLines (l2 :: K'))
      (joinLines_ne_nil l2 K' hl2), ih]

/-- `pyStrip` is the identity on a string that neither starts nor ends
with whitespace. -/
theorem pyStrip_eq_self (s : List Char)
    (hhead : ∀ c, s.head? = some c → pySpace c = false)
    (hlast : ∀ c, s.getLast? = some c → pySpace c = false) :
    pyStrip s = s := by
  cases s with
  | nil => rfl
  | cons c cs =>
    have h1 : pySpace c = false := hhead c rfl
    have hfront : (c :: cs).dropWhile pySpace = c :: cs := by
      rw [List.dropWhile_cons, h1]
      simp
    have hlastc : ∀ d, ((c :: cs).reverse).head? = some d →
        pySpace d = false := by
      intro d hd
      rw [List.head?_reverse] at hd
      exact hlast d hd
    have hback : ((c :: cs).reverse).dropWhile pySpace = (c :: cs).reverse := by
      cases hrev : (c :: cs).reverse with
      | nil => rfl
      | cons d ds =>
        have hd : pySpace d = false := by
          apply hlastc
          rw [hrev]
          rfl
        rw [List.dropWhile_cons, hd]
        simp
    unfold pyStrip
    rw [hfront, hback, List.reverse_reverse]

/-- A trim-safe line is nonempty and has non-whitespace first and last
characters. -/
theorem trimSafeLine_spec (l : List Char) (hl : trimSafeLine l = true) :
    l ≠ [] ∧
    (∀ c, l.head? = some c → pySpace c = false) ∧
    (∀ c, l.getLast? = some c → pySpace c = false) := by
  cases l with
  | nil => simp [trimSafeLine] at hl
  | cons c cs =>
    simp only [trimSafeLine, Bool.and_eq_true, Bool.not_eq_true'] at hl
    obtain ⟨h1, h2⟩ := hl
    refine ⟨by simp, ?_, ?_⟩
    · intro d hd
      obtain rfl : c = d := by simpa using hd
      exact h1
    · intro d hd
      have hlast : (c :: cs).getLastD 'a' = d := by
        rw [List.getLastD_eq_getLast?, hd]
        rfl
      rw [← hlast]
      exact h2

/-- The first character of the newline-join of trim-safe lines is not
whitespace. -/
theorem joinLines_head_space :
    ∀ K : List (List Char), (∀ l ∈ K, trimSafeLine l = true) →
      ∀ c, (joinLines K).head? = some c → pySpace c = false
  | [], _, c, hc => by simp [joinLines] at hc
  | [l], hK, c, hc =>
    (trimSafeLine_spec l (hK l (List.mem_singleton.mpr rfl))).2.1 c hc
  | l :: l2 :: K'', hK, c, hc => by
    cases l with
    | nil =>
      have := hK [] (List.mem_cons_self _ _)
      simp [trimSafeLine] at this
    | cons c0 cs =>
      have hc0 : c0 = c := by
        have : (joinLines ((c0 :: cs) :: l2 :: K'')).head? = some c0 := rfl
        rw [this] at hc
        exact Option.some.inj hc
      subst hc0
      exact (trimSafeLine_spec (c0 :: cs)
        (hK _ (List.mem_cons_self _ _))).2.1 c0 rfl

/-- The last character of the newline-join of trim-safe lines is not
whitespace. -/
theorem joinLines_last_space :
    ∀ K : List (List Char), (∀ l ∈ K, trimSafeLine l = true) →
      ∀ c, (joinLines K).getLast? = some c → pySpace c = false
  | [], _, c, hc => by simp [joinLines] at hc
  | [l], hK, c, hc =>
    (trimSafeLine_spec l (hK l (List.mem_singleton.mpr rfl))).2.2 c hc
  | l :: l2 :: K'', hK, c, hc => by
    have hK' : ∀ m ∈ l2 :: K'', trimSafeLine m = true :=
      fun m hm => hK m (List.mem_cons_of_mem _ hm)
    have hl2 : l2 ≠ [] :=
      (trimSafeLine_spec l2 (hK' l2 (List.mem_cons_self _ _))).1
    have hjne : joinLines (l2 :: K'') ≠ [] := joinLines_ne_nil l2 K'' hl2
    obtain ⟨b, j', hj⟩ := List.exists_cons_of_ne_nil hjne
    have hsplit : (joinLines (l :: l2 :: K'')).getLast? =
        (joinLines (l2 :: K'')).getLast? := by
      show (l ++ '\n' :: joinLines (l2 :: K'')).getLast? = _
      rw [List.getLast?_append_cons, hj, List.getLast?_cons_cons]
    rw [hsplit] at hc
    exact joinLines_last_space (l2 :: K'') hK' c hc

/-- C6 counterexample: filtering is not idempotent.  The input consists of
one line with leading whitespace; the first filter keeps it but the final
whole-output `strip()` removes the leading spaces, after which the line
matches the anchored `^Loading required package:` noise pattern, so a
second filter removes it. -/
theorem C6_filter_not_idempotent :
    filter_r_stderr (filter_r_stderr "  Loading required package: foo".data) ≠
      filter_r_stderr "  Loading required package: foo".data := by
  decide

/-- C6 (amended): the filter is idempotent on every input whose lines are
all nonempty and neither begin nor end with whitespace — then the final
whole-output strip cannot rewrite any line, so a second pass sees exactly
the lines the first pass kept and keeps them all. -/
theorem C6_filter_idempotent_on_trim_safe (x : List Char)
    (h : ∀ l ∈ pySplitlines x, trimSafeLine l = true) :
    filter_r_stderr (filter_r_stderr x) = filter_r_stderr x := by
  cases hK : (pySplitlines x).filter keepLine with
  | nil =>
    have hfx : filter_r_stderr x = [] := by
      unfold filter_r_stderr
      by_cases hx : x.isEmpty
      · simp [hx]
      · simp only [hx, Bool.false_eq_true, if_false, hK]
        rfl
    rw [hfx]
    rfl
  | cons k0 K' =>
    have hmemK : ∀ l ∈ k0 :: K', l ∈ pySplitlines x ∧ keepLine l = true := by
      intro l hl
      rw [← hK] at hl
      exact List.mem_filter.mp hl
    have hts : ∀ l ∈ k0 :: K', trimSafeLine l = true :=
      fun l hl => h l (hmemK l hl).1
    have hnn : ∀ l ∈ k0 :: K', l ≠ [] ∧ ∀ c ∈ l, pyLineBreak c = false := by
      intro l hl
      exact ⟨(trimSafeLine_spec l (hts l hl)).1,
        pySplitlines_no_break x l (hmemK l hl).1⟩
    have hstrip : pyStrip (joinLines (k0 :: K')) = joinLines (k0 :: K') :=
      pyStrip_eq_self _ (joinLines_head_space _ hts)
        (joinLines_last_space _ hts)
    have hxne : x.isEmpty = false := by
      cases x with
      | nil => exact absurd hK (by simp [pySplitlines])
      | cons c cs => rfl
    have hfx : filter_r_stderr x = joinLines (k0 :: K') := by
      unfold filter_r_stderr
      rw [if_neg (by simp [hxne]), hK, hstrip]
    rw [hfx]
    have hjne : joinLines (k0 :: K') ≠ [] :=
      joinLines_ne_nil k0 K' (hnn k0 (List.mem_cons_self _ _)).1
    unfold filter_r_stderr
    rw [if_neg (by simpa using hjne)]
    rw [pySplitlines_joinLines (k0 :: K') (by simp) hnn]
    rw [List.filter_eq_self.mpr (fun a ha => (hmemK a ha).2)]
    exact hstrip

/-- Witness for C6's amended statement: a warning line followed by an
error line, both trim-safe; the filter fixes them on the first pass. -/
theorem C6_filter_idempotent_on_trim_safe_witness :
    filter_r_stderr (filter_r_stderr
      "Warning: NAs introduced by coercion\nError in foo() : bar".data) =
    filter_r_stderr
      "Warning: NAs introduced by coercion\nError in foo() : bar".data :=
  C6_filter_idempotent_on_trim_safe
    "Warning: NAs introduced by coercion\nError in foo() : bar".data
    (by decide)


end OmniAgents
